import Mathlib

/-!
Verification of `viridispalettes.py` (pymol_viridis): a shallow embedding of
the palette registry, the `spectrum` default-palette patch, the menu patch
state machine and the text colorization helper, together with theorems
settling the specification's claims.

Python strings are modelled as `String` / `List Char`, Python lists and
tuples as `List`, Python dicts as insertion-ordered association lists, and
Python operations that can raise (`IndexError`, `NameError`,
`AttributeError`) return `Option`, with `none` marking the raised error.
-/

set_option maxRecDepth 8000

/-- Python `l[i] = x` on a list (or a tuple rebuilt through `list`/`tuple`)
of length `n`: succeeds iff `i < n`, otherwise raises `IndexError` (`none`). -/
def pyListSet (l : List α) (i : Nat) (x : α) : Option (List α) :=
  if i < l.length then some (l.set i x) else none

/-- First-match lookup in an insertion-ordered association list
(Python dict access, as an `Option`). -/
def dictLookup (d : List (String × α)) (k : String) : Option α :=
  match d with
  | [] => none
  | (k', v) :: rest => if k' = k then some v else dictLookup rest k

/-- Python dict assignment `d[k] = v`: replaces the value at the first
occurrence of `k`, appends `(k, v)` when `k` is absent. -/
def pyDictSet (d : List (String × α)) (k : String) (v : α) : List (String × α) :=
  match d with
  | [] => [(k, v)]
  | (k', v') :: rest =>
    if k' = k then (k', v) :: rest else (k', v') :: pyDictSet rest k v

/-- Insertion at a clamped non-negative position (inserts at the end when the
position exceeds the length): the non-negative core of Python `list.insert`. -/
def listInsertAt : Nat → α → List α → List α
  | 0, x, l => x :: l
  | _ + 1, x, [] => [x]
  | n + 1, x, a :: l => a :: listInsertAt n x l

/-- Python `list.insert(idx, x)` including negative-index semantics: a
negative `idx` counts from the end (clamped at 0), a non-negative one is
clamped at the length. -/
def pyInsert (l : List α) (idx : Int) (x : α) : List α :=
  if idx < 0 then listInsertAt ((l.length : Int) + idx).toNat x l
  else listInsertAt (min idx.toNat l.length) x l

/-- Boolean test that `pat` is an initial segment of `l`. -/
def isPrefixList : List Char → List Char → Bool
  | [], _ => true
  | _ :: _, [] => false
  | a :: as, b :: bs => a == b && isPrefixList as bs

/-- Number of positions at which `pat` occurs as a contiguous block of `l`. -/
def countInfix (pat l : List Char) : Nat :=
  (List.range (l.length + 1)).countP (fun i => isPrefixList pat (l.drop i))
/-- Hex color stops of the `inferno` palette, transcribed from the `NEW_PALETTES` table. -/
def inferno_values : List String := [
  "#000003", "#000004", "#000006", "#010007", "#010109", "#01010B", "#02010E", "#020210",
  "#030212", "#040314", "#040316", "#050418", "#06041B", "#07051D", "#08061F", "#090621",
  "#0A0723", "#0B0726", "#0D0828", "#0E082A", "#0F092D", "#10092F", "#120A32", "#130A34",
  "#140B36", "#160B39", "#170B3B", "#190B3E", "#1A0B40", "#1C0C43", "#1D0C45", "#1F0C47",
  "#200C4A", "#220B4C", "#240B4E", "#260B50", "#270B52", "#290B54", "#2B0A56", "#2D0A58",
  "#2E0A5A", "#300A5C", "#32095D", "#34095F", "#350960", "#370961", "#390962", "#3B0964",
  "#3C0965", "#3E0966", "#400966", "#410967", "#430A68", "#450A69", "#460A69", "#480B6A",
  "#4A0B6A", "#4B0C6B", "#4D0C6B", "#4F0D6C", "#500D6C", "#520E6C", "#530E6D", "#550F6D",
  "#570F6D", "#58106D", "#5A116D", "#5B116E", "#5D126E", "#5F126E", "#60136E", "#62146E",
  "#63146E", "#65156E", "#66156E", "#68166E", "#6A176E", "#6B176E", "#6D186E", "#6E186E",
  "#70196E", "#72196D", "#731A6D", "#751B6D", "#761B6D", "#781C6D", "#7A1C6D", "#7B1D6C",
  "#7D1D6C", "#7E1E6C", "#801F6B", "#811F6B", "#83206B", "#85206A", "#86216A", "#88216A",
  "#892269", "#8B2269", "#8D2369", "#8E2468", "#902468", "#912567", "#932567", "#952666",
  "#962666", "#982765", "#992864", "#9B2864", "#9C2963", "#9E2963", "#A02A62", "#A12B61",
  "#A32B61", "#A42C60", "#A62C5F", "#A72D5F", "#A92E5E", "#AB2E5D", "#AC2F5C", "#AE305B",
  "#AF315B", "#B1315A", "#B23259", "#B43358", "#B53357", "#B73456", "#B83556", "#BA3655",
  "#BB3754", "#BD3753", "#BE3852", "#BF3951", "#C13A50", "#C23B4F", "#C43C4E", "#C53D4D",
  "#C73E4C", "#C83E4B", "#C93F4A", "#CB4049", "#CC4148", "#CD4247", "#CF4446", "#D04544",
  "#D14643", "#D24742", "#D44841", "#D54940", "#D64A3F", "#D74B3E", "#D94D3D", "#DA4E3B",
  "#DB4F3A", "#DC5039", "#DD5238", "#DE5337", "#DF5436", "#E05634", "#E25733", "#E35832",
  "#E45A31", "#E55B30", "#E65C2E", "#E65E2D", "#E75F2C", "#E8612B", "#E9622A", "#EA6428",
  "#EB6527", "#EC6726", "#ED6825", "#ED6A23", "#EE6C22", "#EF6D21", "#F06F1F", "#F0701E",
  "#F1721D", "#F2741C", "#F2751A", "#F37719", "#F37918", "#F47A16", "#F57C15", "#F57E14",
  "#F68012", "#F68111", "#F78310", "#F7850E", "#F8870D", "#F8880C", "#F88A0B", "#F98C09",
  "#F98E08", "#F99008", "#FA9107", "#FA9306", "#FA9506", "#FA9706", "#FB9906", "#FB9B06",
  "#FB9D06", "#FB9E07", "#FBA007", "#FBA208", "#FBA40A", "#FBA60B", "#FBA80D", "#FBAA0E",
  "#FBAC10", "#FBAE12", "#FBB014", "#FBB116", "#FBB318", "#FBB51A", "#FBB71C", "#FBB91E",
  "#FABB21", "#FABD23", "#FABF25", "#FAC128", "#F9C32A", "#F9C52C", "#F9C72F", "#F8C931",
  "#F8CB34", "#F8CD37", "#F7CF3A", "#F7D13C", "#F6D33F", "#F6D542", "#F5D745", "#F5D948",
  "#F4DB4B", "#F4DC4F", "#F3DE52", "#F3E056", "#F3E259", "#F2E45D", "#F2E660", "#F1E864",
  "#F1E968", "#F1EB6C", "#F1ED70", "#F1EE74", "#F1F079", "#F1F27D", "#F2F381", "#F2F485",
  "#F3F689", "#F4F78D", "#F5F891", "#F6FA95", "#F7FB99", "#F9FC9D", "#FAFDA0", "#FCFEA4"]

/-- Hex color stops of the `magma` palette, transcribed from the `NEW_PALETTES` table. -/
def magma_values : List String := [
  "#000003", "#000004", "#000006", "#010007", "#010109", "#01010B", "#02020D", "#02020F",
  "#030311", "#040313", "#040415", "#050417", "#060519", "#07051B", "#08061D", "#09071F",
  "#0A0722", "#0B0824", "#0C0926", "#0D0A28", "#0E0A2A", "#0F0B2C", "#100C2F", "#110C31",
  "#120D33", "#140D35", "#150E38", "#160E3A", "#170F3C", "#180F3F", "#1A1041", "#1B1044",
  "#1C1046", "#1E1049", "#1F114B", "#20114D", "#221150", "#231152", "#251155", "#261157",
  "#281159", "#2A115C", "#2B115E", "#2D1060", "#2F1062", "#301065", "#321067", "#341068",
  "#350F6A", "#370F6C", "#390F6E", "#3B0F6F", "#3C0F71", "#3E0F72", "#400F73", "#420F74",
  "#430F75", "#450F76", "#470F77", "#481078", "#4A1079", "#4B1079", "#4D117A", "#4F117B",
  "#50127B", "#52127C", "#53137C", "#55137D", "#57147D", "#58157E", "#5A157E", "#5B167E",
  "#5D177E", "#5E177F", "#60187F", "#61187F", "#63197F", "#651A80", "#661A80", "#681B80",
  "#691C80", "#6B1C80", "#6C1D80", "#6E1E81", "#6F1E81", "#711F81", "#731F81", "#742081",
  "#762181", "#772181", "#792281", "#7A2281", "#7C2381", "#7E2481", "#7F2481", "#812581",
  "#822581", "#842681", "#852681", "#872781", "#892881", "#8A2881", "#8C2980", "#8D2980",
  "#8F2A80", "#912A80", "#922B80", "#942B80", "#952C80", "#972C7F", "#992D7F", "#9A2D7F",
  "#9C2E7F", "#9E2E7E", "#9F2F7E", "#A12F7E", "#A3307E", "#A4307D", "#A6317D", "#A7317D",
  "#A9327C", "#AB337C", "#AC337B", "#AE347B", "#B0347B", "#B1357A", "#B3357A", "#B53679",
  "#B63679", "#B83778", "#B93778", "#BB3877", "#BD3977", "#BE3976", "#C03A75", "#C23A75",
  "#C33B74", "#C53C74", "#C63C73", "#C83D72", "#CA3E72", "#CB3E71", "#CD3F70", "#CE4070",
  "#D0416F", "#D1426E", "#D3426D", "#D4436D", "#D6446C", "#D7456B", "#D9466A", "#DA4769",
  "#DC4869", "#DD4968", "#DE4A67", "#E04B66", "#E14C66", "#E24D65", "#E44E64", "#E55063",
  "#E65162", "#E75262", "#E85461", "#EA5560", "#EB5660", "#EC585F", "#ED595F", "#EE5B5E",
  "#EE5D5D", "#EF5E5D", "#F0605D", "#F1615C", "#F2635C", "#F3655C", "#F3675B", "#F4685B",
  "#F56A5B", "#F56C5B", "#F66E5B", "#F6705B", "#F7715B", "#F7735C", "#F8755C", "#F8775C",
  "#F9795C", "#F97B5D", "#F97D5D", "#FA7F5E", "#FA805E", "#FA825F", "#FB8460", "#FB8660",
  "#FB8861", "#FB8A62", "#FC8C63", "#FC8E63", "#FC9064", "#FC9265", "#FC9366", "#FD9567",
  "#FD9768", "#FD9969", "#FD9B6A", "#FD9D6B", "#FD9F6C", "#FDA16E", "#FDA26F", "#FDA470",
  "#FEA671", "#FEA873", "#FEAA74", "#FEAC75", "#FEAE76", "#FEAF78", "#FEB179", "#FEB37B",
  "#FEB57C", "#FEB77D", "#FEB97F", "#FEBB80", "#FEBC82", "#FEBE83", "#FEC085", "#FEC286",
  "#FEC488", "#FEC689", "#FEC78B", "#FEC98D", "#FECB8E", "#FDCD90", "#FDCF92", "#FDD193",
  "#FDD295", "#FDD497", "#FDD698", "#FDD89A", "#FDDA9C", "#FDDC9D", "#FDDD9F", "#FDDFA1",
  "#FDE1A3", "#FCE3A5", "#FCE5A6", "#FCE6A8", "#FCE8AA", "#FCEAAC", "#FCECAE", "#FCEEB0",
  "#FCF0B1", "#FCF1B3", "#FCF3B5", "#FCF5B7", "#FBF7B9", "#FBF9BB", "#FBFABD", "#FBFCBF"]

/-- Hex color stops of the `plasma` palette, transcribed from the `NEW_PALETTES` table. -/
def plasma_values : List String := [
  "#0C0786", "#100787", "#130689", "#15068A", "#18068B", "#1B068C", "#1D068D", "#1F058E",
  "#21058F", "#230590", "#250591", "#270592", "#290593", "#2B0594", "#2D0494", "#2F0495",
  "#310496", "#330497", "#340498", "#360498", "#380499", "#3A049A", "#3B039A", "#3D039B",
  "#3F039C", "#40039C", "#42039D", "#44039E", "#45039E", "#47029F", "#49029F", "#4A02A0",
  "#4C02A1", "#4E02A1", "#4F02A2", "#5101A2", "#5201A3", "#5401A3", "#5601A3", "#5701A4",
  "#5901A4", "#5A00A5", "#5C00A5", "#5E00A5", "#5F00A6", "#6100A6", "#6200A6", "#6400A7",
  "#6500A7", "#6700A7", "#6800A7", "#6A00A7", "#6C00A8", "#6D00A8", "#6F00A8", "#7000A8",
  "#7200A8", "#7300A8", "#7500A8", "#7601A8", "#7801A8", "#7901A8", "#7B02A8", "#7C02A7",
  "#7E03A7", "#7F03A7", "#8104A7", "#8204A7", "#8405A6", "#8506A6", "#8607A6", "#8807A5",
  "#8908A5", "#8B09A4", "#8C0AA4", "#8E0CA4", "#8F0DA3", "#900EA3", "#920FA2", "#9310A1",
  "#9511A1", "#9612A0", "#9713A0", "#99149F", "#9A159E", "#9B179E", "#9D189D", "#9E199C",
  "#9F1A9B", "#A01B9B", "#A21C9A", "#A31D99", "#A41E98", "#A51F97", "#A72197", "#A82296",
  "#A92395", "#AA2494", "#AC2593", "#AD2692", "#AE2791", "#AF2890", "#B02A8F", "#B12B8F",
  "#B22C8E", "#B42D8D", "#B52E8C", "#B62F8B", "#B7308A", "#B83289", "#B93388", "#BA3487",
  "#BB3586", "#BC3685", "#BD3784", "#BE3883", "#BF3982", "#C03B81", "#C13C80", "#C23D80",
  "#C33E7F", "#C43F7E", "#C5407D", "#C6417C", "#C7427B", "#C8447A", "#C94579", "#CA4678",
  "#CB4777", "#CC4876", "#CD4975", "#CE4A75", "#CF4B74", "#D04D73", "#D14E72", "#D14F71",
  "#D25070", "#D3516F", "#D4526E", "#D5536D", "#D6556D", "#D7566C", "#D7576B", "#D8586A",
  "#D95969", "#DA5A68", "#DB5B67", "#DC5D66", "#DC5E66", "#DD5F65", "#DE6064", "#DF6163",
  "#DF6262", "#E06461", "#E16560", "#E26660", "#E3675F", "#E3685E", "#E46A5D", "#E56B5C",
  "#E56C5B", "#E66D5A", "#E76E5A", "#E87059", "#E87158", "#E97257", "#EA7356", "#EA7455",
  "#EB7654", "#EC7754", "#EC7853", "#ED7952", "#ED7B51", "#EE7C50", "#EF7D4F", "#EF7E4E",
  "#F0804D", "#F0814D", "#F1824C", "#F2844B", "#F2854A", "#F38649", "#F38748", "#F48947",
  "#F48A47", "#F58B46", "#F58D45", "#F68E44", "#F68F43", "#F69142", "#F79241", "#F79341",
  "#F89540", "#F8963F", "#F8983E", "#F9993D", "#F99A3C", "#FA9C3B", "#FA9D3A", "#FA9F3A",
  "#FAA039", "#FBA238", "#FBA337", "#FBA436", "#FCA635", "#FCA735", "#FCA934", "#FCAA33",
  "#FCAC32", "#FCAD31", "#FDAF31", "#FDB030", "#FDB22F", "#FDB32E", "#FDB52D", "#FDB62D",
  "#FDB82C", "#FDB92B", "#FDBB2B", "#FDBC2A", "#FDBE29", "#FDC029", "#FDC128", "#FDC328",
  "#FDC427", "#FDC626", "#FCC726", "#FCC926", "#FCCB25", "#FCCC25", "#FCCE25", "#FBD024",
  "#FBD124", "#FBD324", "#FAD524", "#FAD624", "#FAD824", "#F9D924", "#F9DB24", "#F8DD24",
  "#F8DF24", "#F7E024", "#F7E225", "#F6E425", "#F6E525", "#F5E726", "#F5E926", "#F4EA26",
  "#F3EC26", "#F3EE26", "#F2F026", "#F2F126", "#F1F326", "#F0F525", "#F0F623", "#EFF821"]

/-- Hex color stops of the `viridis` palette, transcribed from the `NEW_PALETTES` table. -/
def viridis_values : List String := [
  "#440154", "#440255", "#440357", "#450558", "#45065A", "#45085B", "#46095C", "#460B5E",
  "#460C5F", "#460E61", "#470F62", "#471163", "#471265", "#471466", "#471567", "#471669",
  "#47186A", "#48196B", "#481A6C", "#481C6E", "#481D6F", "#481E70", "#482071", "#482172",
  "#482273", "#482374", "#472575", "#472676", "#472777", "#472878", "#472A79", "#472B7A",
  "#472C7B", "#462D7C", "#462F7C", "#46307D", "#46317E", "#45327F", "#45347F", "#453580",
  "#453681", "#443781", "#443982", "#433A83", "#433B83", "#433C84", "#423D84", "#423E85",
  "#424085", "#414186", "#414286", "#404387", "#404487", "#3F4587", "#3F4788", "#3E4888",
  "#3E4989", "#3D4A89", "#3D4B89", "#3D4C89", "#3C4D8A", "#3C4E8A", "#3B508A", "#3B518A",
  "#3A528B", "#3A538B", "#39548B", "#39558B", "#38568B", "#38578C", "#37588C", "#37598C",
  "#365A8C", "#365B8C", "#355C8C", "#355D8C", "#345E8D", "#345F8D", "#33608D", "#33618D",
  "#32628D", "#32638D", "#31648D", "#31658D", "#31668D", "#30678D", "#30688D", "#2F698D",
  "#2F6A8D", "#2E6B8E", "#2E6C8E", "#2E6D8E", "#2D6E8E", "#2D6F8E", "#2C708E", "#2C718E",
  "#2C728E", "#2B738E", "#2B748E", "#2A758E", "#2A768E", "#2A778E", "#29788E", "#29798E",
  "#287A8E", "#287A8E", "#287B8E", "#277C8E", "#277D8E", "#277E8E", "#267F8E", "#26808E",
  "#26818E", "#25828E", "#25838D", "#24848D", "#24858D", "#24868D", "#23878D", "#23888D",
  "#23898D", "#22898D", "#228A8D", "#228B8D", "#218C8D", "#218D8C", "#218E8C", "#208F8C",
  "#20908C", "#20918C", "#1F928C", "#1F938B", "#1F948B", "#1F958B", "#1F968B", "#1E978A",
  "#1E988A", "#1E998A", "#1E998A", "#1E9A89", "#1E9B89", "#1E9C89", "#1E9D88", "#1E9E88",
  "#1E9F88", "#1EA087", "#1FA187", "#1FA286", "#1FA386", "#20A485", "#20A585", "#21A685",
  "#21A784", "#22A784", "#23A883", "#23A982", "#24AA82", "#25AB81", "#26AC81", "#27AD80",
  "#28AE7F", "#29AF7F", "#2AB07E", "#2BB17D", "#2CB17D", "#2EB27C", "#2FB37B", "#30B47A",
  "#32B57A", "#33B679", "#35B778", "#36B877", "#38B976", "#39B976", "#3BBA75", "#3DBB74",
  "#3EBC73", "#40BD72", "#42BE71", "#44BE70", "#45BF6F", "#47C06E", "#49C16D", "#4BC26C",
  "#4DC26B", "#4FC369", "#51C468", "#53C567", "#55C666", "#57C665", "#59C764", "#5BC862",
  "#5EC961", "#60C960", "#62CA5F", "#64CB5D", "#67CC5C", "#69CC5B", "#6BCD59", "#6DCE58",
  "#70CE56", "#72CF55", "#74D054", "#77D052", "#79D151", "#7CD24F", "#7ED24E", "#81D34C",
  "#83D34B", "#86D449", "#88D547", "#8BD546", "#8DD644", "#90D643", "#92D741", "#95D73F",
  "#97D83E", "#9AD83C", "#9DD93A", "#9FD938", "#A2DA37", "#A5DA35", "#A7DB33", "#AADB32",
  "#ADDC30", "#AFDC2E", "#B2DD2C", "#B5DD2B", "#B7DD29", "#BADE27", "#BDDE26", "#BFDF24",
  "#C2DF22", "#C5DF21", "#C7E01F", "#CAE01E", "#CDE01D", "#CFE11C", "#D2E11B", "#D4E11A",
  "#D7E219", "#DAE218", "#DCE218", "#DFE318", "#E1E318", "#E4E318", "#E7E419", "#E9E419",
  "#ECE41A", "#EEE51B", "#F1E51C", "#F3E51E", "#F6E61F", "#F8E621", "#FAE622", "#FDE724"]

/-- Hex color stops of the `cividis` palette, transcribed from the `NEW_PALETTES` table. -/
def cividis_values : List String := [
  "#00204C", "#00204E", "#002150", "#002251", "#002353", "#002355", "#002456", "#002558",
  "#00265A", "#00265B", "#00275D", "#00285F", "#002861", "#002963", "#002A64", "#002A66",
  "#002B68", "#002C6A", "#002D6C", "#002D6D", "#002E6E", "#002E6F", "#002F6F", "#002F6F",
  "#00306F", "#00316F", "#00316F", "#00326E", "#00336E", "#00346E", "#00346E", "#01356E",
  "#06366E", "#0A376D", "#0E376D", "#12386D", "#15396D", "#17396D", "#1A3A6C", "#1C3B6C",
  "#1E3C6C", "#203C6C", "#223D6C", "#243E6C", "#263E6C", "#273F6C", "#29406B", "#2B416B",
  "#2C416B", "#2E426B", "#2F436B", "#31446B", "#32446B", "#33456B", "#35466B", "#36466B",
  "#37476B", "#38486B", "#3A496B", "#3B496B", "#3C4A6B", "#3D4B6B", "#3E4B6B", "#404C6B",
  "#414D6B", "#424E6B", "#434E6B", "#444F6B", "#45506B", "#46506B", "#47516B", "#48526B",
  "#49536B", "#4A536B", "#4B546B", "#4C556B", "#4D556B", "#4E566B", "#4F576C", "#50586C",
  "#51586C", "#52596C", "#535A6C", "#545A6C", "#555B6C", "#565C6C", "#575D6D", "#585D6D",
  "#595E6D", "#5A5F6D", "#5B5F6D", "#5C606D", "#5D616E", "#5E626E", "#5F626E", "#5F636E",
  "#60646E", "#61656F", "#62656F", "#63666F", "#64676F", "#65676F", "#666870", "#676970",
  "#686A70", "#686A70", "#696B71", "#6A6C71", "#6B6D71", "#6C6D72", "#6D6E72", "#6E6F72",
  "#6F6F72", "#6F7073", "#707173", "#717273", "#727274", "#737374", "#747475", "#757575",
  "#757575", "#767676", "#777776", "#787876", "#797877", "#7A7977", "#7B7A77", "#7B7B78",
  "#7C7B78", "#7D7C78", "#7E7D78", "#7F7E78", "#807E78", "#817F78", "#828078", "#838178",
  "#848178", "#858278", "#868378", "#878478", "#888578", "#898578", "#8A8678", "#8B8778",
  "#8C8878", "#8D8878", "#8E8978", "#8F8A78", "#908B78", "#918C78", "#928C78", "#938D78",
  "#948E78", "#958F78", "#968F77", "#979077", "#989177", "#999277", "#9A9377", "#9B9377",
  "#9C9477", "#9D9577", "#9E9676", "#9F9776", "#A09876", "#A19876", "#A29976", "#A39A75",
  "#A49B75", "#A59C75", "#A69C75", "#A79D75", "#A89E74", "#A99F74", "#AAA074", "#ABA174",
  "#ACA173", "#ADA273", "#AEA373", "#AFA473", "#B0A572", "#B1A672", "#B2A672", "#B4A771",
  "#B5A871", "#B6A971", "#B7AA70", "#B8AB70", "#B9AB70", "#BAAC6F", "#BBAD6F", "#BCAE6E",
  "#BDAF6E", "#BEB06E", "#BFB16D", "#C0B16D", "#C1B26C", "#C2B36C", "#C3B46C", "#C5B56B",
  "#C6B66B", "#C7B76A", "#C8B86A", "#C9B869", "#CAB969", "#CBBA68", "#CCBB68", "#CDBC67",
  "#CEBD67", "#D0BE66", "#D1BF66", "#D2C065", "#D3C065", "#D4C164", "#D5C263", "#D6C363",
  "#D7C462", "#D8C561", "#D9C661", "#DBC760", "#DCC860", "#DDC95F", "#DECA5E", "#DFCB5D",
  "#E0CB5D", "#E1CC5C", "#E3CD5B", "#E4CE5B", "#E5CF5A", "#E6D059", "#E7D158", "#E8D257",
  "#E9D356", "#EBD456", "#ECD555", "#EDD654", "#EED753", "#EFD852", "#F0D951", "#F1DA50",
  "#F3DB4F", "#F4DC4E", "#F5DD4D", "#F6DE4C", "#F7DF4B", "#F9E049", "#FAE048", "#FBE147",
  "#FCE246", "#FDE345", "#FFE443", "#FFE542", "#FFE642", "#FFE743", "#FFE844", "#FFE945"]

/-- Hex color stops of the `turbo` palette, transcribed from the `NEW_PALETTES` table. -/
def turbo_values : List String := [
  "#30123b", "#311542", "#32184a", "#341b51", "#351e58", "#36215f", "#372365", "#38266c",
  "#392972", "#3a2c79", "#3b2f7f", "#3c3285", "#3c358b", "#3d3791", "#3e3a96", "#3f3d9c",
  "#4040a1", "#4043a6", "#4145ab", "#4148b0", "#424bb5", "#434eba", "#4350be", "#4353c2",
  "#4456c7", "#4458cb", "#455bce", "#455ed2", "#4560d6", "#4563d9", "#4666dd", "#4668e0",
  "#466be3", "#466de6", "#4670e8", "#4673eb", "#4675ed", "#4678f0", "#467af2", "#467df4",
  "#467ff6", "#4682f8", "#4584f9", "#4587fb", "#4589fc", "#448cfd", "#438efd", "#4291fe",
  "#4193fe", "#4096fe", "#3f98fe", "#3e9bfe", "#3c9dfd", "#3ba0fc", "#39a2fc", "#38a5fb",
  "#36a8f9", "#34aaf8", "#33acf6", "#31aff5", "#2fb1f3", "#2db4f1", "#2bb6ef", "#2ab9ed",
  "#28bbeb", "#26bde9", "#25c0e6", "#23c2e4", "#21c4e1", "#20c6df", "#1ec9dc", "#1dcbda",
  "#1ccdd7", "#1bcfd4", "#1ad1d2", "#19d3cf", "#18d5cc", "#18d7ca", "#17d9c7", "#17dac4",
  "#17dcc2", "#17debf", "#18e0bd", "#18e1ba", "#19e3b8", "#1ae4b6", "#1be5b4", "#1de7b1",
  "#1ee8af", "#20e9ac", "#22eba9", "#24eca6", "#27eda3", "#29eea0", "#2cef9d", "#2ff09a",
  "#32f197", "#35f394", "#38f491", "#3bf48d", "#3ff58a", "#42f687", "#46f783", "#4af880",
  "#4df97c", "#51f979", "#55fa76", "#59fb72", "#5dfb6f", "#61fc6c", "#65fc68", "#69fd65",
  "#6dfd62", "#71fd5f", "#74fe5c", "#78fe59", "#7cfe56", "#80fe53", "#84fe50", "#87fe4d",
  "#8bfe4b", "#8efe48", "#92fe46", "#95fe44", "#98fe42", "#9bfd40", "#9efd3e", "#a1fc3d",
  "#a4fc3b", "#a6fb3a", "#a9fb39", "#acfa37", "#aef937", "#b1f836", "#b3f835", "#b6f735",
  "#b9f534", "#bbf434", "#bef334", "#c0f233", "#c3f133", "#c5ef33", "#c8ee33", "#caed33",
  "#cdeb34", "#cfea34", "#d1e834", "#d4e735", "#d6e535", "#d8e335", "#dae236", "#dde036",
  "#dfde36", "#e1dc37", "#e3da37", "#e5d838", "#e7d738", "#e8d538", "#ead339", "#ecd139",
  "#edcf39", "#efcd39", "#f0cb3a", "#f2c83a", "#f3c63a", "#f4c43a", "#f6c23a", "#f7c039",
  "#f8be39", "#f9bc39", "#f9ba38", "#fab737", "#fbb537", "#fbb336", "#fcb035", "#fcae34",
  "#fdab33", "#fda932", "#fda631", "#fda330", "#fea12f", "#fe9e2e", "#fe9b2d", "#fe982c",
  "#fd952b", "#fd9229", "#fd8f28", "#fd8c27", "#fc8926", "#fc8624", "#fb8323", "#fb8022",
  "#fa7d20", "#fa7a1f", "#f9771e", "#f8741c", "#f7711b", "#f76e1a", "#f66b18", "#f56817",
  "#f46516", "#f36315", "#f26014", "#f15d13", "#ef5a11", "#ee5810", "#ed550f", "#ec520e",
  "#ea500d", "#e94d0d", "#e84b0c", "#e6490b", "#e5460a", "#e3440a", "#e24209", "#e04008",
  "#de3e08", "#dd3c07", "#db3a07", "#d93806", "#d73606", "#d63405", "#d43205", "#d23005",
  "#d02f04", "#ce2d04", "#cb2b03", "#c92903", "#c72803", "#c52602", "#c32402", "#c02302",
  "#be2102", "#bb1f01", "#b91e01", "#b61c01", "#b41b01", "#b11901", "#ae1801", "#ac1601",
  "#a91501", "#a61401", "#a31201", "#a01101", "#9d1001", "#9a0e01", "#970d01", "#940c01",
  "#910b01", "#8e0a01", "#8b0901", "#870801", "#840701", "#810602", "#7d0502", "#7a0402"]

/-- `' '.join values`: the values' characters, single spaces in between. -/
def joinSpace : List String → List Char
  | [] => []
  | [v] => v.data
  | v :: rest => v.data ++ ' ' :: joinSpace rest

/-- Python `.replace('#', '0x')`: the replace pattern is the single
character `#`, so every occurrence of `#` is rewritten to `0x`. -/
def replaceHash : List Char → List Char
  | [] => []
  | c :: rest => if c = '#' then '0' :: 'x' :: replaceHash rest else c :: replaceHash rest

/-- `format_colors` from `add_palettes`: `' '.join(values).replace('#', '0x')`. -/
def format_colors (values : List String) : String :=
  String.mk (replaceHash (joinSpace values))

/-- The palette-string format as the specification words it: the literal hex
stops, each with its `#` prefix replaced by `0x`, joined by single spaces. -/
def spec_format_colors (values : List String) : String :=
  String.mk (joinSpace (values.map (fun v => String.mk ('0' :: 'x' :: v.data.drop 1))))

/-- A well-formed hex stop: a leading `#` and no other `#` anywhere. -/
def hexStop (v : String) : Bool :=
  match v.data with
  | '#' :: rest => !(rest.contains '#')
  | _ => false

/-- The `NEW_PALETTES` table, keys in the Python dict literal's insertion order. -/
def NEW_PALETTES : List (String × List String) :=
  [("inferno", inferno_values), ("magma", magma_values), ("plasma", plasma_values),
   ("viridis", viridis_values), ("cividis", cividis_values), ("turbo", turbo_values)]

theorem replaceHash_append (a b : List Char) :
    replaceHash (a ++ b) = replaceHash a ++ replaceHash b := by
  induction a with
  | nil => rfl
  | cons c rest ih => by_cases h : c = '#' <;> simp [replaceHash, h, ih]

theorem replaceHash_of_not_mem (l : List Char) (h : '#' ∉ l) : replaceHash l = l := by
  induction l with
  | nil => rfl
  | cons c rest ih =>
    have hc : ¬(c = '#') := fun e => h (e ▸ List.mem_cons_self c rest)
    have hr : '#' ∉ rest := fun m => h (List.mem_cons_of_mem _ m)
    simp [replaceHash, hc, ih hr]

theorem replaceHash_joinSpace (values : List String)
    (h : ∀ v ∈ values, hexStop v = true) :
    replaceHash (joinSpace values) =
      joinSpace (values.map (fun v => String.mk ('0' :: 'x' :: v.data.drop 1))) := by
  induction values with
  | nil => rfl
  | cons v rest ih =>
    have hv : hexStop v = true := h v (List.mem_cons_self v rest)
    have hrest : ∀ w ∈ rest, hexStop w = true :=
      fun w hw => h w (List.mem_cons_of_mem _ hw)
    obtain ⟨r, hd, hnr⟩ : ∃ r, v.data = '#' :: r ∧ '#' ∉ r := by
      unfold hexStop at hv
      match hvd : v.data with
      | [] => rw [hvd] at hv; exact absurd hv (by simp)
      | c :: r =>
        rw [hvd] at hv
        have hc : c = '#' := by
          by_contra hne
          simp [hne] at hv
        subst hc
        refine ⟨r, rfl, ?_⟩
        simpa using hv
    cases rest with
    | nil =>
      simp only [joinSpace, List.map]
      rw [hd]
      simp [replaceHash, replaceHash_of_not_mem r hnr]
    | cons w ws =>
      simp only [joinSpace, List.map]
      rw [hd]
      have : replaceHash (('#' :: r) ++ ' ' :: joinSpace (w :: ws)) =
          replaceHash ('#' :: r) ++ replaceHash (' ' :: joinSpace (w :: ws)) :=
        replaceHash_append _ _
      simp only [List.cons_append] at this ⊢
      rw [this]
      have hsp : replaceHash (' ' :: joinSpace (w :: ws)) =
          ' ' :: replaceHash (joinSpace (w :: ws)) := by
        simp [replaceHash]
      rw [hsp, ih hrest]
      simp [replaceHash, replaceHash_of_not_mem r hnr]

theorem format_colors_eq_spec (values : List String)
    (h : ∀ v ∈ values, hexStop v = true) :
    format_colors values = spec_format_colors values :=
  congrArg String.mk (replaceHash_joinSpace values h)

/-- A value held in one of the host's menu-function slots.  The module
compares and restores these by object identity; `hostFn i` stands for an
arbitrary host-provided function object, and the three patch constructors
for the wrapper functions this module installs. -/
inductive MenuFn where
  | hostFn : Nat → MenuFn
  | byChainPatch : MenuFn
  | molColorPatch : MenuFn
  | colorAutoPatch : MenuFn
  deriving DecidableEq

/-- The slice of host state `viridispalettes.py` reads and mutates:
`pymol.viewing.palette_colors_dict`, `cmd.spectrum.__defaults__`, the three
menu-building slots with the module's saved copies (`pymol.menu._by_chain`
and friends, `none` while the attribute is absent), the
`pymol.menu.has_viridis_menus` flag (`none` while the attribute is absent),
and whether `from pymol.menu import all_colors_list` succeeds. -/
structure PymolState where
  palette_colors_dict : List (String × String)
  spectrum_defaults : List String
  by_chain : MenuFn
  mol_color : MenuFn
  color_auto : MenuFn
  saved_by_chain : Option MenuFn
  saved_mol_color : Option MenuFn
  saved_color_auto : Option MenuFn
  has_viridis_menus : Option Bool
  has_all_colors_list : Bool
  deriving DecidableEq

/-- `patch_spectrum`: sets `cmd.spectrum.__defaults__[1]` to `'turbo'`
(`none` for the `IndexError` when the defaults tuple is shorter than 2). -/
def patch_spectrum (s : PymolState) : Option PymolState :=
  (pyListSet s.spectrum_defaults 1 "turbo").map
    (fun d => { s with spectrum_defaults := d })

/-- `unpatch_spectrum`: sets `cmd.spectrum.__defaults__[1]` to `'rainbow'`
(`none` for the `IndexError` when the defaults tuple is shorter than 2). -/
def unpatch_spectrum (s : PymolState) : Option PymolState :=
  (pyListSet s.spectrum_defaults 1 "rainbow").map
    (fun d => { s with spectrum_defaults := d })

/-- The `viridis` command: with at least one positional argument it assigns
`args[1] = 'viridis'` (an `IndexError`, hence `none`, when exactly one
positional argument is present), otherwise it sets
`kwargs['palette'] = 'viridis'`; surviving calls forward to `cmd.spectrum`,
modelled by returning the forwarded arguments. -/
def viridis (args : List String) (kwargs : List (String × String)) :
    Option (List String × List (String × String)) :=
  if 1 ≤ args.length then
    (pyListSet args 1 "viridis").map (fun a => (a, kwargs))
  else
    some (args, pyDictSet kwargs "palette" "viridis")

/-- The dictionary writes of `add_palettes`: one assignment
`palette_colors_dict[name] = format_colors(values)` per table entry,
in table order. -/
def install_palettes (d : List (String × String)) : List (String × String) :=
  NEW_PALETTES.foldl (fun d p => pyDictSet d p.1 (format_colors p.2)) d

/-- `add_palettes`: registers the six palettes and prints the
backtick-quoted list of newly available palette names. -/
def add_palettes (s : PymolState) : PymolState × List String :=
  ({ s with palette_colors_dict := install_palettes s.palette_colors_dict },
   ["`" ++ String.intercalate "`, `" (NEW_PALETTES.map Prod.fst) ++ "`"])

/-- `_has_viridis_palettes`: every table key occurs among the host
dictionary's keys. -/
def _has_viridis_palettes (s : PymolState) : Bool :=
  NEW_PALETTES.all (fun p => (dictLookup s.palette_colors_dict p.1).isSome)

def msg_already : String := "Palette menus were already added!"

def msg_too_old : String := "PyMOL version too old for palettes menus. Requires 1.6.0 or later."

def msg_not_present : String := "Palette menus are not present!"

/-- `add_viridis_menus`, with the printed lines collected in order; `none`
models the uncaught `IndexError` a too-short defaults tuple would raise in
`patch_spectrum`. -/
def add_viridis_menus (s : PymolState) : Option (PymolState × List String) :=
  if s.has_viridis_menus = some true then
    some (s, [msg_already])
  else
    let s1out :=
      if _has_viridis_palettes s then (s, ([] : List String))
      else
        let pr := add_palettes s
        (pr.1, "Adding palettes..." :: pr.2)
    let out2 := s1out.2 ++ ["Changing default palette for spectrum to `turbo`"]
    match patch_spectrum s1out.1 with
    | none => none
    | some s2 =>
      if s2.has_all_colors_list then
        some ({ s2 with
                  saved_by_chain := some s2.by_chain,
                  saved_mol_color := some s2.mol_color,
                  saved_color_auto := some s2.color_auto,
                  by_chain := MenuFn.byChainPatch,
                  mol_color := MenuFn.molColorPatch,
                  color_auto := MenuFn.colorAutoPatch,
                  has_viridis_menus := some true },
              out2 ++ ["Adding viridis to menus...", "Done!"])
      else
        some (s2, out2 ++ [msg_too_old])

/-- `remove_viridis_menus`, with the printed lines collected in order.
The unconditional `unpatch_spectrum` runs first, exactly as in the source;
the flag check, the version check and the slot restoration follow.  `none`
models the uncaught `IndexError` of `unpatch_spectrum` and the
`AttributeError` of reading a never-saved `pymol.menu._by_chain`. -/
def remove_viridis_menus (s : PymolState) : Option (PymolState × List String) :=
  match unpatch_spectrum s with
  | none => none
  | some s1 =>
    let out1 := ["Changing default palette for spectrum back to `rainbow`"]
    if s1.has_viridis_menus = some true then
      if s1.has_all_colors_list then
        match s1.saved_by_chain, s1.saved_mol_color, s1.saved_color_auto with
        | some f1, some f2, some f3 =>
          some ({ s1 with
                    by_chain := f1, mol_color := f2, color_auto := f3,
                    has_viridis_menus := some false },
                out1 ++ ["Removing viridis from menus...", "Done!"])
        | _, _, _ => none
      else
        some (s1, out1 ++ [msg_too_old])
    else
      some (s1, out1 ++ [msg_not_present])

/-- `_viridis8_rgb`: the eight hardcoded `\\RGB` color codes. -/
def _viridis8_rgb : List String :=
  ["224", "134", "145", "154", "164", "373", "671", "881"]

/-- The marking loop of `_colorize_text`: each character is replaced by
`'\\' + code + character` until the (already truncated) palette runs out;
a `(` is replaced by `'\\888('` and the loop breaks, leaving the remaining
characters untouched. -/
def colorizeLoop : List String → List Char → List Char
  | [], text => text
  | _ :: _, [] => []
  | col :: pal, c :: cs =>
    if c = '(' then '\\' :: '8' :: '8' :: '8' :: c :: cs
    else '\\' :: (col.data ++ c :: colorizeLoop pal cs)

/-- `_colorize_text`: appends the terminator `888` to the palette (the
Python integer `888` formats as the same three characters as the string),
truncates to `min (len palette + 1) (len text)` entries, runs the marking
loop and appends one final `'\\888'` reset. -/
def _colorize_text (text : List Char) (palette : List String) : List Char :=
  colorizeLoop ((palette ++ ["888"]).take (min (palette.length + 1) text.length)) text
    ++ ['\\', '8', '8', '8']

/-- Scanner state while rendering `\\RGB` markup: `plain` text, or one,
two, or all three characters of a color code still pending. -/
inductive RenderMode where
  | plain : RenderMode
  | esc1 : RenderMode
  | esc2 : Char → RenderMode
  | esc3 : Char → Char → RenderMode

/-- Rendering semantics of the host's `\\RGB` inline color markup: a
backslash followed by three characters sets the current color, every other
character is emitted paired with the color in force at that point. -/
def renderS : List Char → List Char → RenderMode → List (Char × List Char)
  | [], _, _ => []
  | c :: rest, col, RenderMode.plain =>
    if c = '\\' then renderS rest col RenderMode.esc1
    else (c, col) :: renderS rest col RenderMode.plain
  | c :: rest, col, RenderMode.esc1 => renderS rest col (RenderMode.esc2 c)
  | c :: rest, col, RenderMode.esc2 c1 => renderS rest col (RenderMode.esc3 c1 c)
  | c :: rest, _, RenderMode.esc3 c1 c2 => renderS rest [c1, c2, c] RenderMode.plain

/-- Rendering a marked-up string from its start, given the color initially
in force. -/
def render (l : List Char) (col : List Char) : List (Char × List Char) :=
  renderS l col RenderMode.plain

/-- A menu action: a command string to run, or a nested submenu. -/
inductive MenuAction where
  | run : String → MenuAction
  | sub : List (Nat × String × MenuAction) → MenuAction

/-- A menu row `[kind, label, action]`. -/
abbrev MenuRow := Nat × String × MenuAction

/-- The colorized `viridis` label used by the patched menus. -/
def viridis_col : String := String.mk (_colorize_text "viridis".data _viridis8_rgb)

/-- `_viridis_menu`: the new viridis submenu, for a selection `sele` and the
menu context's user property keys `props` (`repr(key)` on a plain key is
modelled as wrapping in single quotes). -/
def _viridis_menu (sele : String) (props : List String) : List MenuRow :=
  [ (2, "Viridis:", MenuAction.run ""),
    (1, viridis_col ++ "(elem C)",
      MenuAction.run ("cmd.spectrum(\"count\", \"viridis\", selection=\"(" ++ sele ++ ") & elem C\")")),
    (1, viridis_col ++ "(*/CA)",
      MenuAction.run ("cmd.spectrum(\"count\", \"viridis\", selection=\"(" ++ sele ++ ") & */CA\")")),
    (1, viridis_col,
      MenuAction.run ("cmd.spectrum(\"count\", \"viridis\", selection=\"" ++ sele ++ "\", byres=1)")),
    (0, "", MenuAction.run ""),
    (1, "b-factors",
      MenuAction.run ("cmd.spectrum(\"b\", \"viridis\", selection=(\"" ++ sele ++ "\"), quiet=0)")),
    (1, "b-factors(*/CA)",
      MenuAction.run ("cmd.spectrum(\"b\", \"viridis\", selection=\"((" ++ sele ++ ") & */CA)\", quiet=0)")),
    (0, "", MenuAction.run ""),
    (1, "area (molecular)",
      MenuAction.run ("util.color_by_area((\"" ++ sele ++ "\"), \"molecular\", palette=\"viridis\")")),
    (1, "area (solvent)",
      MenuAction.run ("util.color_by_area((\"" ++ sele ++ "\"), \"solvent\", palette=\"viridis\")")),
    (0, "", MenuAction.run ""),
    (1, "user properties", MenuAction.sub (
      (2, "User Properties:", MenuAction.run "") ::
      props.map (fun key =>
        (1, key, MenuAction.sub (
          (2, "Palette", MenuAction.run "") ::
          ["viridis", "blue white red", "green red"].map (fun palette =>
            (1, palette,
              MenuAction.run ("cmd.spectrum(\"properties['" ++ key ++ "']\", \"" ++ palette ++ "\", \"" ++ sele ++ "\")"))))))))]

/-- The scan of `_mol_color_patch`: the index of the first row whose label
is exactly `auto` (`none` when the loop finds none, so that
`auto_menu_idx` stays unassigned and the later read raises `NameError`). -/
def findAutoIdx : List MenuRow → Option Nat
  | [] => none
  | r :: rest =>
    if r.2.1 = "auto" then some 0 else (findAutoIdx rest).map (· + 1)

/-- The row `[1, viridis_col, _viridis_menu(...)]` inserted by
`_mol_color_patch`. -/
def viridisRow (sele : String) (props : List String) : MenuRow :=
  (1, viridis_col, MenuAction.sub (_viridis_menu sele props))

/-- `_mol_color_patch`, applied to the host's `_mol_color` menu rows:
inserts the viridis row at `auto_menu_idx - 1` through Python's
`list.insert`; `none` models the `NameError` raised when no row is
labelled `auto` and `auto_menu_idx` was never assigned. -/
def _mol_color_patch (mol_color_rows : List MenuRow) (sele : String)
    (props : List String) : Option (List MenuRow) :=
  match findAutoIdx mol_color_rows with
  | none => none
  | some i => some (pyInsert mol_color_rows ((i : Int) - 1) (viridisRow sele props))

theorem dictLookup_pyDictSet_self (d : List (String × α)) (k : String) (v : α) :
    dictLookup (pyDictSet d k v) k = some v := by
  induction d with
  | nil => simp [pyDictSet, dictLookup]
  | cons p rest ih =>
    obtain ⟨k', v'⟩ := p
    by_cases h : k' = k <;> simp [pyDictSet, dictLookup, h, ih]

theorem dictLookup_pyDictSet_ne (d : List (String × α)) (k k' : String) (v : α)
    (h : k' ≠ k) :
    dictLookup (pyDictSet d k' v) k = dictLookup d k := by
  induction d with
  | nil => simp [pyDictSet, dictLookup, h]
  | cons p rest ih =>
    obtain ⟨k0, v0⟩ := p
    by_cases h0 : k0 = k' <;> by_cases h1 : k0 = k <;>
      simp_all [pyDictSet, dictLookup]

theorem findAutoIdx_lt_length (rows : List MenuRow) (i : Nat)
    (h : findAutoIdx rows = some i) : i < rows.length := by
  induction rows generalizing i with
  | nil => simp [findAutoIdx] at h
  | cons r rest ih =>
    by_cases ha : r.2.1 = "auto"
    · simp [findAutoIdx, ha] at h
      simp only [List.length_cons]
      omega
    · simp [findAutoIdx, ha] at h
      obtain ⟨j, hj, rfl⟩ := h
      have := ih j hj
      simp only [List.length_cons]
      omega

theorem listInsertAt_getElem?_self (n : Nat) (x : α) (l : List α) (h : n ≤ l.length) :
    (listInsertAt n x l)[n]? = some x := by
  induction n generalizing l with
  | zero => cases l <;> simp [listInsertAt]
  | succ n ih =>
    cases l with
    | nil => simp at h
    | cons a l' =>
      simp [listInsertAt]
      exact ih l' (by simpa using h)

theorem zipWith_take_left (f : α → β → γ) (l : List α) (l' : List β) (n : Nat)
    (h : l'.length ≤ n) :
    List.zipWith f (l.take n) l' = List.zipWith f l l' := by
  induction l' generalizing l n with
  | nil => simp
  | cons b bs ih =>
    cases l with
    | nil => simp
    | cons a as =>
      cases n with
      | zero => simp at h
      | succ n =>
        simp only [List.take_succ_cons, List.zipWith_cons_cons]
        rw [ih as n (by simpa using h)]

theorem zipWith_append_left (f : α → β → γ) (l ext : List α) (l' : List β)
    (h : l'.length ≤ l.length) :
    List.zipWith f (l ++ ext) l' = List.zipWith f l l' := by
  rw [← zipWith_take_left f (l ++ ext) l' l'.length (Nat.le_refl _),
    List.take_append_of_le_length h,
    zipWith_take_left f l l' l'.length (Nat.le_refl _)]

theorem colorizeLoop_break : ∀ (t1 : List Char) (pal : List String) (t2 : List Char),
    '(' ∉ t1 → t1.length < pal.length →
    colorizeLoop pal (t1 ++ '(' :: t2) =
      (List.zipWith (fun col c => '\\' :: (col.data ++ [c])) pal t1).flatten
        ++ '\\' :: '8' :: '8' :: '8' :: '(' :: t2 := by
  intro t1
  induction t1 with
  | nil =>
    intro pal t2 _ hlen
    cases pal with
    | nil => simp at hlen
    | cons col pal' => simp [colorizeLoop]
  | cons a t1' ih =>
    intro pal t2 hparen hlen
    cases pal with
    | nil => simp at hlen
    | cons col pal' =>
      have ha : ¬(a = '(') := fun e => hparen (by simp [e])
      have hp' : '(' ∉ t1' := fun m => hparen (List.mem_cons_of_mem _ m)
      have hl' : t1'.length < pal'.length := by
        simp only [List.length_cons] at hlen
        omega
      simp only [List.cons_append, colorizeLoop, ha, if_false,
        List.zipWith_cons_cons, List.flatten_cons, List.append_eq]
      rw [ih pal' t2 hp' hl']
      simp

theorem renderS_plain_append : ∀ (cs rest col : List Char), '\\' ∉ cs →
    renderS (cs ++ rest) col RenderMode.plain =
      cs.map (fun c => (c, col)) ++ renderS rest col RenderMode.plain := by
  intro cs
  induction cs with
  | nil => intro rest col _; simp
  | cons c cs' ih =>
    intro rest col h
    have hc : ¬(c = '\\') := fun e => h (by simp [e])
    have h' : '\\' ∉ cs' := fun m => h (List.mem_cons_of_mem _ m)
    simp [renderS, hc, ih rest col h']

theorem renderS_esc (x y z a : Char) (rest col : List Char) (ha : ¬(a = '\\')) :
    renderS ('\\' :: x :: y :: z :: a :: rest) col RenderMode.plain =
      (a, [x, y, z]) :: renderS rest [x, y, z] RenderMode.plain := by
  simp [renderS, ha]

theorem renderS_marks : ∀ (t1 : List Char) (cols : List String) (k col : List Char)
    (K : List (Char × List Char)),
    t1.length ≤ cols.length → '\\' ∉ t1 → (∀ s ∈ cols, s.data.length = 3) →
    (∀ col', renderS k col' RenderMode.plain = K) →
    renderS ((List.zipWith (fun col c => '\\' :: (col.data ++ [c])) cols t1).flatten ++ k)
        col RenderMode.plain =
      List.zipWith (fun c colr => (c, colr.data)) t1 cols ++ K := by
  intro t1
  induction t1 with
  | nil =>
    intro cols k col K _ _ _ hk
    simp [hk col]
  | cons a t1' ih =>
    intro cols k col K hlen hnb h3 hk
    cases cols with
    | nil => simp at hlen
    | cons colh cols' =>
      obtain ⟨x, y, z, hxyz⟩ := List.length_eq_three.mp (h3 colh (List.mem_cons_self _ _))
      have ha : ¬(a = '\\') := fun e => hnb (by simp [e])
      have hnb' : '\\' ∉ t1' := fun m => hnb (List.mem_cons_of_mem _ m)
      have h3' : ∀ s ∈ cols', s.data.length = 3 := fun s hs => h3 s (List.mem_cons_of_mem _ hs)
      have hlen' : t1'.length ≤ cols'.length := by
        simp only [List.length_cons] at hlen
        omega
      simp only [List.zipWith_cons_cons, List.flatten_cons, hxyz]
      simp only [List.cons_append, List.append_assoc, List.singleton_append,
        List.nil_append, List.append_eq]
      rw [renderS_esc x y z a _ col ha]
      exact congrArg (List.cons (a, [x, y, z])) (ih cols' k [x, y, z] K hlen' hnb' h3' hk)

/-- C6 counterexample: the label `by chain` has 8 characters, not 9, so the
output carries 8 color marks plus the single final reset — 9 backslashes in
all — while the claim's nine per-character color codes plus one reset would
require 10 backslashes (neither the label nor the codes contain one). -/
theorem c6_counterexample :
    "by chain".data.length = 8 ∧
    (_colorize_text "by chain".data _viridis8_rgb).count '\\' = 9 ∧
    ¬ ((_colorize_text "by chain".data _viridis8_rgb).count '\\' = 10) := by
  refine ⟨by decide, by decide, by decide⟩

/-- C6 (amended): colorizing `by chain` with the fixed 8-entry palette
(extended with the terminator and truncated to the 8-character label, so
the terminator entry goes unused) prefixes each of the label's 8
characters with its respective color code, and exactly one reset code
`\888` occurs, appended at the string's end. -/
theorem c6_colorize_by_chain :
    _colorize_text "by chain".data _viridis8_rgb =
      (List.zipWith (fun col c => '\\' :: (col.data ++ [c])) _viridis8_rgb "by chain".data).flatten
        ++ ['\\', '8', '8', '8'] ∧
    countInfix ['\\', '8', '8', '8'] (_colorize_text "by chain".data _viridis8_rgb) = 1 := by
  refine ⟨by decide, by decide⟩

/-- C7: for every label `t1 ++ '(' :: t2` whose `(` appears while the
extended palette is not yet exhausted (and which contains no literal
backslash of its own), rendering the colorized text shows each character
before the `(` in its palette color, and the `(` and every later
character carrying the reset color `888`. -/
theorem c7_paren_forces_reset (t1 t2 : List Char)
    (h1 : '\\' ∉ t1) (h2 : '\\' ∉ t2) (hp : '(' ∉ t1)
    (hlen : t1.length < _viridis8_rgb.length + 1) :
    render (_colorize_text (t1 ++ '(' :: t2) _viridis8_rgb) [] =
      List.zipWith (fun c col => (c, col.data)) t1 _viridis8_rgb
        ++ ('(' :: t2).map (fun c => (c, ['8', '8', '8'])) := by
  have h8 : _viridis8_rgb.length = 8 := rfl
  rw [h8] at hlen
  have hlen8 : t1.length ≤ 8 := by omega
  have hL : (t1 ++ '(' :: t2).length = t1.length + 1 + t2.length := by
    simp only [List.length_append, List.length_cons]
    omega
  have hpal : t1.length <
      ((_viridis8_rgb ++ ["888"]).take
        (min (_viridis8_rgb.length + 1) (t1 ++ '(' :: t2).length)).length := by
    simp only [List.length_take, List.length_append, List.length_cons, List.length_nil, h8]
    omega
  unfold render _colorize_text
  rw [colorizeLoop_break t1 _ t2 hp hpal]
  have hz : List.zipWith (fun col c => '\\' :: (col.data ++ [c]))
      ((_viridis8_rgb ++ ["888"]).take
        (min (_viridis8_rgb.length + 1) (t1 ++ '(' :: t2).length)) t1 =
      List.zipWith (fun col c => '\\' :: (col.data ++ [c])) _viridis8_rgb t1 := by
    rw [zipWith_take_left _ _ _ _ (by rw [h8, hL]; omega),
      zipWith_append_left _ _ _ _ (by rw [h8]; exact hlen8)]
  rw [hz, List.append_assoc]
  simp only [List.cons_append, List.nil_append]
  have hk : ∀ col', renderS ('\\' :: '8' :: '8' :: '8' :: '(' :: (t2 ++ ['\\', '8', '8', '8'])) col'
      RenderMode.plain = ('(', ['8', '8', '8']) :: t2.map (fun c => (c, ['8', '8', '8'])) := by
    intro col'
    rw [renderS_esc '8' '8' '8' '(' (t2 ++ ['\\', '8', '8', '8']) col' (by decide)]
    rw [renderS_plain_append t2 ['\\', '8', '8', '8'] ['8', '8', '8'] h2]
    simp [renderS]
  have hm := renderS_marks t1 _viridis8_rgb
    ('\\' :: '8' :: '8' :: '8' :: '(' :: (t2 ++ ['\\', '8', '8', '8'])) []
    (('(', ['8', '8', '8']) :: t2.map (fun c => (c, ['8', '8', '8'])))
    (by rw [h8]; exact hlen8) h1 (by decide) hk
  rw [hm]
  simp

/-- C7 witness: the label `auto(elem C)` of the claim, rendered. -/
theorem c7_paren_forces_reset_witness :
    ('\\' ∉ "auto".data) ∧ ('\\' ∉ "elem C)".data) ∧ ('(' ∉ "auto".data) ∧
    "auto".data.length < _viridis8_rgb.length + 1 ∧
    render (_colorize_text ("auto".data ++ '(' :: "elem C)".data) _viridis8_rgb) [] =
      List.zipWith (fun c col => (c, col.data)) "auto".data _viridis8_rgb
        ++ ('(' :: "elem C)".data).map (fun c => (c, ['8', '8', '8'])) :=
  ⟨by decide, by decide, by decide, by decide,
    c7_paren_forces_reset "auto".data "elem C)".data
      (by decide) (by decide) (by decide) (by decide)⟩

/-- C8: on any state whose spectrum defaults tuple has an element at
index 1, `patch_spectrum` and `unpatch_spectrum` both succeed, preserve the
tuple's length, write `turbo` (resp. `rainbow`) at index 1, and leave every
element at any other index unchanged. -/
theorem c8_patch_only_index1 (s : PymolState) (h : 1 < s.spectrum_defaults.length) :
    ∃ sp su, patch_spectrum s = some sp ∧ unpatch_spectrum s = some su ∧
      sp.spectrum_defaults.length = s.spectrum_defaults.length ∧
      su.spectrum_defaults.length = s.spectrum_defaults.length ∧
      sp.spectrum_defaults[1]? = some "turbo" ∧
      su.spectrum_defaults[1]? = some "rainbow" ∧
      (∀ i, i ≠ 1 → sp.spectrum_defaults[i]? = s.spectrum_defaults[i]? ∧
        su.spectrum_defaults[i]? = s.spectrum_defaults[i]?) := by
  refine ⟨{ s with spectrum_defaults := s.spectrum_defaults.set 1 "turbo" },
    { s with spectrum_defaults := s.spectrum_defaults.set 1 "rainbow" },
    by simp [patch_spectrum, pyListSet, h],
    by simp [unpatch_spectrum, pyListSet, h],
    by simp, by simp,
    by simp [List.getElem?_set_self h], by simp [List.getElem?_set_self h],
    fun i hi => ⟨?_, ?_⟩⟩ <;>
  · simp only []
    exact List.getElem?_set_ne (fun e => hi e.symm)

/-- C8 witness: a concrete three-element defaults tuple. -/
theorem c8_patch_only_index1_witness :
    1 < (["count", "rainbow", "(all)"] : List String).length ∧
    ∃ sp su,
      patch_spectrum
        { palette_colors_dict := [], spectrum_defaults := ["count", "rainbow", "(all)"],
          by_chain := MenuFn.hostFn 0, mol_color := MenuFn.hostFn 1,
          color_auto := MenuFn.hostFn 2, saved_by_chain := none, saved_mol_color := none,
          saved_color_auto := none, has_viridis_menus := none,
          has_all_colors_list := true } = some sp ∧
      unpatch_spectrum
        { palette_colors_dict := [], spectrum_defaults := ["count", "rainbow", "(all)"],
          by_chain := MenuFn.hostFn 0, mol_color := MenuFn.hostFn 1,
          color_auto := MenuFn.hostFn 2, saved_by_chain := none, saved_mol_color := none,
          saved_color_auto := none, has_viridis_menus := none,
          has_all_colors_list := true } = some su ∧
      sp.spectrum_defaults.length = 3 ∧
      su.spectrum_defaults.length = 3 ∧
      sp.spectrum_defaults[1]? = some "turbo" ∧
      su.spectrum_defaults[1]? = some "rainbow" ∧
      (∀ i, i ≠ 1 → sp.spectrum_defaults[i]? = (["count", "rainbow", "(all)"] : List String)[i]? ∧
        su.spectrum_defaults[i]? = (["count", "rainbow", "(all)"] : List String)[i]?) :=
  ⟨by decide, c8_patch_only_index1 _ (by decide)⟩

/-- C9: the `viridis` command raises `IndexError` exactly on calls with one
positional argument; calls with zero or with two or more positional
arguments go through to `cmd.spectrum`. -/
theorem c9_viridis_arity (args : List String) (kwargs : List (String × String)) :
    (args.length = 1 → viridis args kwargs = none) ∧
    (args.length = 0 → viridis args kwargs = some (args, pyDictSet kwargs "palette" "viridis")) ∧
    (2 ≤ args.length → viridis args kwargs = some (args.set 1 "viridis", kwargs)) := by
  refine ⟨fun h => ?_, fun h => ?_, fun h => ?_⟩
  · have h1 : 1 ≤ args.length := by omega
    have h2 : ¬(1 < args.length) := by omega
    simp [viridis, pyListSet, h1, h2]
  · have h1 : ¬(1 ≤ args.length) := by omega
    simp [viridis, h1]
  · have h1 : 1 ≤ args.length := by omega
    have h2 : 1 < args.length := by omega
    simp [viridis, pyListSet, h1, h2]

/-- C9 witness: one-, zero-, and three-argument calls. -/
theorem c9_viridis_arity_witness :
    viridis ["sel"] [] = none ∧
    viridis [] [] = some ([], [("palette", "viridis")]) ∧
    viridis ["count", "red", "sel"] [] = some (["count", "viridis", "sel"], []) :=
  ⟨(c9_viridis_arity ["sel"] []).1 rfl,
   (c9_viridis_arity [] []).2.1 rfl,
   (c9_viridis_arity ["count", "red", "sel"] []).2.2 (by decide)⟩

/-- Sample rows for the `_mol_color_patch` analysis: the first row is
labelled `auto`. -/
def rowsAutoFirst : List MenuRow :=
  [(1, "auto", MenuAction.run "cmd.color('auto')"),
   (1, "white", MenuAction.run "cmd.color('white')")]

/-- C10 counterexample: when the first `auto` row sits at index 0, Python's
`insert(-1, ...)` places the viridis row at the second-to-last position —
index 1 here, after the `auto` row — not at index `i - 1 = -1`, one
position before it. -/
theorem c10_counterexample :
    findAutoIdx rowsAutoFirst = some 0 ∧
    (_mol_color_patch rowsAutoFirst "(all)" []).map (List.map (fun r => r.2.1)) =
      some ["auto", viridis_col, "white"] ∧
    ¬ (("auto" : String) = viridis_col) := by
  refine ⟨rfl, rfl, by decide⟩

/-- C10 (amended): `_mol_color_patch` ends in a `NameError` exactly when no
row of the original `mol_color` menu is labelled `auto`; when the first
`auto` row sits at index `i ≥ 1`, the viridis submenu row is inserted at
index `i - 1`, one position before the row that preceded the `auto` row
(for `i = 0`, Python's negative-index insert places it at the
second-to-last position instead, as the counterexample shows). -/
theorem c10_mol_color_patch (rows : List MenuRow) (sele : String) (props : List String) :
    (findAutoIdx rows = none → _mol_color_patch rows sele props = none) ∧
    (∀ i, findAutoIdx rows = some i → 1 ≤ i →
      _mol_color_patch rows sele props =
        some (listInsertAt (i - 1) (viridisRow sele props) rows) ∧
      (listInsertAt (i - 1) (viridisRow sele props) rows)[i - 1]? =
        some (viridisRow sele props)) := by
  constructor
  · intro h
    simp [_mol_color_patch, h]
  · intro i hfind hi
    have hlt : i < rows.length := findAutoIdx_lt_length rows i hfind
    have hneg : ¬((i : Int) - 1 < 0) := by omega
    have htn : ((i : Int) - 1).toNat = i - 1 := by omega
    have hmin : min (i - 1) rows.length = i - 1 := by omega
    constructor
    · simp [_mol_color_patch, hfind, pyInsert, hneg, htn, hmin]
    · exact listInsertAt_getElem?_self (i - 1) _ rows (by omega)

/-- Sample rows for the `_mol_color_patch` witness: `auto` at index 2. -/
def rowsAutoThird : List MenuRow :=
  [(2, "Color:", MenuAction.run ""), (0, "", MenuAction.run ""),
   (1, "auto", MenuAction.run "cmd.color('auto')"),
   (1, "white", MenuAction.run "cmd.color('white')")]

/-- C10 witness: with the first `auto` row at index 2, the viridis row is
inserted at index 1. -/
theorem c10_mol_color_patch_witness :
    findAutoIdx rowsAutoThird = some 2 ∧
    (_mol_color_patch rowsAutoThird "(all)" [] =
      some (listInsertAt 1 (viridisRow "(all)" []) rowsAutoThird) ∧
    (listInsertAt 1 (viridisRow "(all)" []) rowsAutoThird)[1]? =
      some (viridisRow "(all)" [])) :=
  ⟨rfl, (c10_mol_color_patch rowsAutoThird "(all)" []).2 2 rfl (by decide)⟩

/-- C5: after the palette registration, each of the six palette names maps
in the host dictionary to its literal hex-stop list joined by single
spaces with each stop's `#` prefix replaced by `0x`, in table order. -/
theorem c5_palette_dict_entries (d : List (String × String)) (name : String)
    (vals : List String) (hmem : (name, vals) ∈ NEW_PALETTES) :
    dictLookup (install_palettes d) name = some (spec_format_colors vals) := by
  have hfold : install_palettes d =
      pyDictSet (pyDictSet (pyDictSet (pyDictSet (pyDictSet (pyDictSet d
        "inferno" (format_colors inferno_values))
        "magma" (format_colors magma_values))
        "plasma" (format_colors plasma_values))
        "viridis" (format_colors viridis_values))
        "cividis" (format_colors cividis_values))
        "turbo" (format_colors turbo_values) := rfl
  rw [hfold]
  simp only [NEW_PALETTES, List.mem_cons, List.mem_singleton, Prod.mk.injEq,
    List.not_mem_nil, or_false] at hmem
  rcases hmem with ⟨rfl, rfl⟩ | ⟨rfl, rfl⟩ | ⟨rfl, rfl⟩ | ⟨rfl, rfl⟩ | ⟨rfl, rfl⟩ | ⟨rfl, rfl⟩
  · rw [dictLookup_pyDictSet_ne _ _ _ _ (by decide), dictLookup_pyDictSet_ne _ _ _ _ (by decide), dictLookup_pyDictSet_ne _ _ _ _ (by decide), dictLookup_pyDictSet_ne _ _ _ _ (by decide), dictLookup_pyDictSet_ne _ _ _ _ (by decide), dictLookup_pyDictSet_self]
    exact congrArg some (format_colors_eq_spec inferno_values (by decide))
  · rw [dictLookup_pyDictSet_ne _ _ _ _ (by decide), dictLookup_pyDictSet_ne _ _ _ _ (by decide), dictLookup_pyDictSet_ne _ _ _ _ (by decide), dictLookup_pyDictSet_ne _ _ _ _ (by decide), dictLookup_pyDictSet_self]
    exact congrArg some (format_colors_eq_spec magma_values (by decide))
  · rw [dictLookup_pyDictSet_ne _ _ _ _ (by decide), dictLookup_pyDictSet_ne _ _ _ _ (by decide), dictLookup_pyDictSet_ne _ _ _ _ (by decide), dictLookup_pyDictSet_self]
    exact congrArg some (format_colors_eq_spec plasma_values (by decide))
  · rw [dictLookup_pyDictSet_ne _ _ _ _ (by decide), dictLookup_pyDictSet_ne _ _ _ _ (by decide), dictLookup_pyDictSet_self]
    exact congrArg some (format_colors_eq_spec viridis_values (by decide))
  · rw [dictLookup_pyDictSet_ne _ _ _ _ (by decide), dictLookup_pyDictSet_self]
    exact congrArg some (format_colors_eq_spec cividis_values (by decide))
  · rw [dictLookup_pyDictSet_self]
    exact congrArg some (format_colors_eq_spec turbo_values (by decide))

/-- C5 witness: the `viridis` entry, registered into an empty dictionary. -/
theorem c5_palette_dict_entries_witness :
    ("viridis", viridis_values) ∈ NEW_PALETTES ∧
    dictLookup (install_palettes []) "viridis" = some (spec_format_colors viridis_values) :=
  ⟨by simp [NEW_PALETTES],
   c5_palette_dict_entries [] "viridis" viridis_values (by simp [NEW_PALETTES])⟩

/-- A host palette dictionary that already carries entries for the six
table keys, so installation skips the palette-registration step. -/
def smallPaletteDict : List (String × String) :=
  [("inferno", "x"), ("magma", "x"), ("plasma", "x"),
   ("viridis", "x"), ("cividis", "x"), ("turbo", "x")]

/-- A concrete fresh host state: menus unpatched (flag attribute absent),
default palette `turbo` at index 1, recent host. -/
def state0 : PymolState :=
  { palette_colors_dict := smallPaletteDict
    spectrum_defaults := ["count", "turbo", "(all)"]
    by_chain := MenuFn.hostFn 0
    mol_color := MenuFn.hostFn 1
    color_auto := MenuFn.hostFn 2
    saved_by_chain := none
    saved_mol_color := none
    saved_color_auto := none
    has_viridis_menus := none
    has_all_colors_list := true }

/-- A concrete fresh host state on an old host (`all_colors_list` missing),
default palette `rainbow` at index 1. -/
def state1 : PymolState :=
  { state0 with
      spectrum_defaults := ["count", "rainbow", "(all)"]
      has_all_colors_list := false }

/-- A concrete old-host state whose palette dictionary is missing all six
table keys, so installation has to register them. -/
def state2 : PymolState :=
  { state1 with palette_colors_dict := [] }

/-- C1 counterexample: removing without a prior install (flag absent) does
print the not-present diagnostic, but first unconditionally resets the
default palette: starting from `turbo` at index 1, the call leaves
`rainbow` there, not the prior value. -/
theorem c1_counterexample :
    state0.has_viridis_menus ≠ some true ∧
    (remove_viridis_menus state0).map (fun r => r.1.spectrum_defaults[1]?) =
      some (some "rainbow") ∧
    (remove_viridis_menus state0).map (fun r => r.2.getLast?) =
      some (some msg_not_present) ∧
    state0.spectrum_defaults[1]? = some "turbo" ∧
    ¬ ((some "rainbow" : Option String) = some "turbo") := by
  refine ⟨by decide, by decide, by decide, by decide, by decide⟩

/-- C1 (amended): with the patch flag absent or false, `remove_viridis_menus`
prints the not-present diagnostic and returns early — every field except the
defaults tuple is untouched — but it has already set the default palette
(element 1 of the defaults) to `rainbow`, rather than leaving it at
whatever value it held before the call. -/
theorem c1_remove_without_install (s : PymolState)
    (hflag : s.has_viridis_menus ≠ some true)
    (hlen : 1 < s.spectrum_defaults.length) :
    remove_viridis_menus s =
      some ({ s with spectrum_defaults := s.spectrum_defaults.set 1 "rainbow" },
            ["Changing default palette for spectrum back to `rainbow`", msg_not_present]) := by
  simp [remove_viridis_menus, unpatch_spectrum, pyListSet, hlen, hflag]

/-- C1 witness: the amended statement at the concrete fresh state. -/
theorem c1_remove_without_install_witness :
    state0.has_viridis_menus ≠ some true ∧ 1 < state0.spectrum_defaults.length ∧
    remove_viridis_menus state0 =
      some ({ state0 with spectrum_defaults := state0.spectrum_defaults.set 1 "rainbow" },
            ["Changing default palette for spectrum back to `rainbow`", msg_not_present]) :=
  ⟨by decide, by decide, c1_remove_without_install state0 (by decide) (by decide)⟩

/-- C2 counterexample: on a host missing `all_colors_list`, installation
prints the too-old diagnostic and skips the menu patching, but it has
already mutated state: the default palette at index 1 changes from
`rainbow` to `turbo`. -/
theorem c2_counterexample :
    state1.has_all_colors_list = false ∧
    state1.spectrum_defaults[1]? = some "rainbow" ∧
    (add_viridis_menus state1).map (fun r => r.1.spectrum_defaults[1]?) =
      some (some "turbo") ∧
    ¬ ((some "turbo" : Option String) = some "rainbow") := by
  refine ⟨rfl, by decide, by decide, by decide⟩

/-- C2 (amended): on a host missing `all_colors_list` (and not already
flagged as patched), `add_viridis_menus` prints the too-old diagnostic and
aborts, leaving the three menu slots, the three saved references and the
patch flag unchanged — but it has already registered the six palettes into
the dictionary when any was missing (the dictionary stays as it was when
all six keys were already present) and set the default palette at index 1
to `turbo`. -/
theorem c2_install_host_too_old (s : PymolState)
    (hold : s.has_all_colors_list = false)
    (hflag : s.has_viridis_menus ≠ some true)
    (hlen : 1 < s.spectrum_defaults.length) :
    ∃ s' out, add_viridis_menus s = some (s', out) ∧
      s'.by_chain = s.by_chain ∧ s'.mol_color = s.mol_color ∧
      s'.color_auto = s.color_auto ∧
      s'.saved_by_chain = s.saved_by_chain ∧ s'.saved_mol_color = s.saved_mol_color ∧
      s'.saved_color_auto = s.saved_color_auto ∧
      s'.has_viridis_menus = s.has_viridis_menus ∧
      s'.palette_colors_dict =
        (if _has_viridis_palettes s then s.palette_colors_dict
         else install_palettes s.palette_colors_dict) ∧
      s'.spectrum_defaults = s.spectrum_defaults.set 1 "turbo" ∧
      ∃ pre, out = pre ++ [msg_too_old] := by
  by_cases hp : _has_viridis_palettes s
  · refine ⟨{ s with spectrum_defaults := s.spectrum_defaults.set 1 "turbo" },
      ["Changing default palette for spectrum to `turbo`", msg_too_old],
      ?_, rfl, rfl, rfl, rfl, rfl, rfl, rfl, by simp [hp], rfl,
      ⟨["Changing default palette for spectrum to `turbo`"], rfl⟩⟩
    simp [add_viridis_menus, patch_spectrum, pyListSet, hp, hflag, hold, hlen]
  · refine ⟨{ s with
        palette_colors_dict := install_palettes s.palette_colors_dict,
        spectrum_defaults := s.spectrum_defaults.set 1 "turbo" },
      ["Adding palettes...",
       "`" ++ String.intercalate "`, `" (NEW_PALETTES.map Prod.fst) ++ "`",
       "Changing default palette for spectrum to `turbo`", msg_too_old],
      ?_, rfl, rfl, rfl, rfl, rfl, rfl, rfl, by simp [hp], rfl,
      ⟨["Adding palettes...",
        "`" ++ String.intercalate "`, `" (NEW_PALETTES.map Prod.fst) ++ "`",
        "Changing default palette for spectrum to `turbo`"], rfl⟩⟩
    simp [add_viridis_menus, add_palettes, patch_spectrum, pyListSet, hp, hflag, hold, hlen]

/-- C2 witness: the amended statement at the concrete old-host state whose
palette dictionary lacks all six keys, so the registration step runs. -/
theorem c2_install_host_too_old_witness :
    state2.has_all_colors_list = false ∧ state2.has_viridis_menus ≠ some true ∧
    1 < state2.spectrum_defaults.length ∧ _has_viridis_palettes state2 = false ∧
    (∃ s' out, add_viridis_menus state2 = some (s', out) ∧
      s'.by_chain = state2.by_chain ∧ s'.mol_color = state2.mol_color ∧
      s'.color_auto = state2.color_auto ∧
      s'.saved_by_chain = state2.saved_by_chain ∧
      s'.saved_mol_color = state2.saved_mol_color ∧
      s'.saved_color_auto = state2.saved_color_auto ∧
      s'.has_viridis_menus = state2.has_viridis_menus ∧
      s'.palette_colors_dict =
        (if _has_viridis_palettes state2 then state2.palette_colors_dict
         else install_palettes state2.palette_colors_dict) ∧
      s'.spectrum_defaults = state2.spectrum_defaults.set 1 "turbo" ∧
      ∃ pre, out = pre ++ [msg_too_old]) :=
  ⟨rfl, by decide, by decide, by decide,
   c2_install_host_too_old state2 rfl (by decide) (by decide)⟩

/-- C3: from an unpatched state on a capable host, install followed by
remove leaves `rainbow` as the default palette at index 1 and restores the
three menu slots to the very values (object identities) they held before
the install. -/
theorem c3_install_then_remove (s : PymolState)
    (hflag : s.has_viridis_menus ≠ some true)
    (hnew : s.has_all_colors_list = true)
    (hlen : 1 < s.spectrum_defaults.length) :
    ∃ s1 o1 s2 o2, add_viridis_menus s = some (s1, o1) ∧
      remove_viridis_menus s1 = some (s2, o2) ∧
      s2.spectrum_defaults[1]? = some "rainbow" ∧
      s2.by_chain = s.by_chain ∧ s2.mol_color = s.mol_color ∧
      s2.color_auto = s.color_auto := by
  have hlen' : 1 < (s.spectrum_defaults.set 1 "turbo").length := by
    rw [List.length_set]; exact hlen
  by_cases hp : _has_viridis_palettes s
  · refine ⟨{ s with
        spectrum_defaults := s.spectrum_defaults.set 1 "turbo",
        saved_by_chain := some s.by_chain, saved_mol_color := some s.mol_color,
        saved_color_auto := some s.color_auto,
        by_chain := MenuFn.byChainPatch, mol_color := MenuFn.molColorPatch,
        color_auto := MenuFn.colorAutoPatch, has_viridis_menus := some true },
      ["Changing default palette for spectrum to `turbo`",
       "Adding viridis to menus...", "Done!"],
      { s with
        spectrum_defaults := (s.spectrum_defaults.set 1 "turbo").set 1 "rainbow",
        saved_by_chain := some s.by_chain, saved_mol_color := some s.mol_color,
        saved_color_auto := some s.color_auto,
        has_viridis_menus := some false },
      ["Changing default palette for spectrum back to `rainbow`",
       "Removing viridis from menus...", "Done!"],
      ?_, ?_, ?_, rfl, rfl, rfl⟩
    · simp [add_viridis_menus, patch_spectrum, pyListSet, hp, hflag, hnew, hlen]
    · simp [remove_viridis_menus, unpatch_spectrum, pyListSet, hlen, hlen', hnew, List.set_set]
    · simp [List.getElem?_set_self, List.length_set, hlen]
  · refine ⟨{ s with
        palette_colors_dict := install_palettes s.palette_colors_dict,
        spectrum_defaults := s.spectrum_defaults.set 1 "turbo",
        saved_by_chain := some s.by_chain, saved_mol_color := some s.mol_color,
        saved_color_auto := some s.color_auto,
        by_chain := MenuFn.byChainPatch, mol_color := MenuFn.molColorPatch,
        color_auto := MenuFn.colorAutoPatch, has_viridis_menus := some true },
      ["Adding palettes...",
       "`" ++ String.intercalate "`, `" (NEW_PALETTES.map Prod.fst) ++ "`",
       "Changing default palette for spectrum to `turbo`",
       "Adding viridis to menus...", "Done!"],
      { s with
        palette_colors_dict := install_palettes s.palette_colors_dict,
        spectrum_defaults := (s.spectrum_defaults.set 1 "turbo").set 1 "rainbow",
        saved_by_chain := some s.by_chain, saved_mol_color := some s.mol_color,
        saved_color_auto := some s.color_auto,
        has_viridis_menus := some false },
      ["Changing default palette for spectrum back to `rainbow`",
       "Removing viridis from menus...", "Done!"],
      ?_, ?_, ?_, rfl, rfl, rfl⟩
    · simp [add_viridis_menus, add_palettes, patch_spectrum, pyListSet, hp, hflag, hnew, hlen]
    · simp [remove_viridis_menus, unpatch_spectrum, pyListSet, hlen, hlen', hnew, List.set_set]
    · simp [List.getElem?_set_self, List.length_set, hlen]

/-- C3 witness: install then remove at the concrete fresh state. -/
theorem c3_install_then_remove_witness :
    state0.has_viridis_menus ≠ some true ∧ state0.has_all_colors_list = true ∧
    1 < state0.spectrum_defaults.length ∧
    (∃ s1 o1 s2 o2, add_viridis_menus state0 = some (s1, o1) ∧
      remove_viridis_menus s1 = some (s2, o2) ∧
      s2.spectrum_defaults[1]? = some "rainbow" ∧
      s2.by_chain = state0.by_chain ∧ s2.mol_color = state0.mol_color ∧
      s2.color_auto = state0.color_auto) :=
  ⟨by decide, rfl, by decide, c3_install_then_remove state0 (by decide) rfl (by decide)⟩

/-- C4 counterexample: on a host missing `all_colors_list`, two successive
installs leave the patch flag unset (not true), and the second call prints
the too-old diagnostic, not the already-added one. -/
theorem c4_counterexample :
    state1.has_all_colors_list = false ∧
    ((add_viridis_menus state1).bind (fun r => add_viridis_menus r.1)).map
      (fun r2 => r2.1.has_viridis_menus) = some none ∧
    ((add_viridis_menus state1).bind (fun r => add_viridis_menus r.1)).map
      (fun r2 => decide (msg_already ∈ r2.2)) = some false := by
  refine ⟨rfl, by decide, by decide⟩

/-- C4 (amended): on any state whose host exposes `all_colors_list` (and
whose defaults tuple has an element at index 1), the first install leaves
the patch flag true and the second install prints only the already-added
diagnostic and returns the state completely unchanged — in particular the
saved original menu functions are untouched. -/
theorem c4_double_install (s : PymolState)
    (hnew : s.has_all_colors_list = true)
    (hlen : 1 < s.spectrum_defaults.length) :
    ∃ s1 o1, add_viridis_menus s = some (s1, o1) ∧ s1.has_viridis_menus = some true ∧
      add_viridis_menus s1 = some (s1, [msg_already]) := by
  by_cases hflag : s.has_viridis_menus = some true
  · exact ⟨s, [msg_already], by simp [add_viridis_menus, hflag], hflag,
      by simp [add_viridis_menus, hflag]⟩
  · by_cases hp : _has_viridis_palettes s
    · refine ⟨{ s with
          spectrum_defaults := s.spectrum_defaults.set 1 "turbo",
          saved_by_chain := some s.by_chain, saved_mol_color := some s.mol_color,
          saved_color_auto := some s.color_auto,
          by_chain := MenuFn.byChainPatch, mol_color := MenuFn.molColorPatch,
          color_auto := MenuFn.colorAutoPatch, has_viridis_menus := some true },
        ["Changing default palette for spectrum to `turbo`",
         "Adding viridis to menus...", "Done!"], ?_, rfl, ?_⟩
      · simp [add_viridis_menus, patch_spectrum, pyListSet, hp, hflag, hnew, hlen]
      · simp [add_viridis_menus]
    · refine ⟨{ s with
          palette_colors_dict := install_palettes s.palette_colors_dict,
          spectrum_defaults := s.spectrum_defaults.set 1 "turbo",
          saved_by_chain := some s.by_chain, saved_mol_color := some s.mol_color,
          saved_color_auto := some s.color_auto,
          by_chain := MenuFn.byChainPatch, mol_color := MenuFn.molColorPatch,
          color_auto := MenuFn.colorAutoPatch, has_viridis_menus := some true },
        ["Adding palettes...",
         "`" ++ String.intercalate "`, `" (NEW_PALETTES.map Prod.fst) ++ "`",
         "Changing default palette for spectrum to `turbo`",
         "Adding viridis to menus...", "Done!"], ?_, rfl, ?_⟩
      · simp [add_viridis_menus, add_palettes, patch_spectrum, pyListSet, hp, hflag, hnew, hlen]
      · simp [add_viridis_menus]

/-- C4 witness: two installs at the concrete fresh state. -/
theorem c4_double_install_witness :
    state0.has_all_colors_list = true ∧ 1 < state0.spectrum_defaults.length ∧
    (∃ s1 o1, add_viridis_menus state0 = some (s1, o1) ∧
      s1.has_viridis_menus = some true ∧
      add_viridis_menus s1 = some (s1, [msg_already])) :=
  ⟨rfl, by decide, c4_double_install state0 rfl (by decide)⟩
